import Mathlib

/-!
Shallow embedding of the micropezzottomet downscaling pipeline
(src/utils.py and src/main_micromet.py).

Elevation rasters are modelled as `ℕ → ℕ → Option ℝ` together with explicit
dimensions: `none` stands for the IEEE NaN used by the numpy code for nodata
and undefined cells, and arithmetic on `Option ℝ` propagates `none` exactly
as NaN propagates through numpy arithmetic.  Geotransform entries are
rationals (the Python floats are used only in exact small arithmetic on the
claims considered here).
-/

namespace Micromet

/-! ## NaN-propagating arithmetic on `Option ℝ` -/

noncomputable def oAdd : Option ℝ → Option ℝ → Option ℝ
  | some a, some b => some (a + b)
  | _, _ => none

noncomputable def oSub : Option ℝ → Option ℝ → Option ℝ
  | some a, some b => some (a - b)
  | _, _ => none

noncomputable def oSMul (c : ℝ) : Option ℝ → Option ℝ
  | some a => some (c * a)
  | none => none

noncomputable def oDivC (x : Option ℝ) (d : ℝ) : Option ℝ :=
  x.map (fun a => a / d)

/-! ## Geotransform and raster data model -/

structure GeoTransform where
  a : ℚ
  e : ℚ
  c : ℚ
  f : ℚ

structure Raster where
  ny : ℕ
  nx : ℕ
  data : ℕ → ℕ → Option ℝ
  gt : GeoTransform

/-- Python `round` (round-half-to-even, as used by `int(round(...))`). -/
def pythonRound (q : ℚ) : ℤ :=
  if q - ⌊q⌋ < 1/2 then ⌊q⌋
  else if 1/2 < q - ⌊q⌋ then ⌊q⌋ + 1
  else if ⌊q⌋ % 2 = 0 then ⌊q⌋ else ⌊q⌋ + 1

/-- Source: `deltaxy = 0.5 * (deltax + deltay)` with `deltax = transform.a`,
`deltay = -transform.e` (no absolute values are taken). -/
def meanCellSize (gt : GeoTransform) : ℚ := (gt.a + -gt.e) / 2

/-- Source: `inc = max(1, int(round(L / deltaxy)))`. -/
def incOf (L dxy : ℚ) : ℕ := max 1 (pythonRound (L / dxy)).toNat

/-- Source: `dem[dem == dem_nodata] = np.nan` executed only when
`dem_nodata is not None`. -/
noncomputable def maskNodata (nodata : Option ℝ) (g : ℕ → ℕ → Option ℝ) :
    ℕ → ℕ → Option ℝ :=
  match nodata with
  | none => g
  | some nd => fun i j =>
      match g i j with
      | none => none
      | some v => if v = nd then none else some v

/-- Source: `dem_pad = np.pad(dem, inc, mode='edge')`; index `(r, c)` of the
padded array is the clamped index `(r - inc, c - inc)` of the original. -/
def demPad (ny nx inc : ℕ) (dem : ℕ → ℕ → Option ℝ) (r c : ℕ) : Option ℝ :=
  dem (min (r - inc) (ny - 1)) (min (c - inc) (nx - 1))

/-- Raw curvature of the cropped block at block index `(i, j)`.  The nine
shifted views in the source reduce, after the `common_shape` crop, to the
following padded-array samples:
`z[i,j] = pad(inc+i, inc+j)`, `zW[i,j] = pad(inc+i, j)`,
`zE[i,j] = pad(inc+i, 2*inc+j)`, `zN[i,j] = pad(i, inc+j)`,
`zS[i,j] = pad(2*inc+i, inc+j)`, `zSW[i,j] = pad(2*inc+i, j)`,
`zNE[i,j] = pad(i, 2*inc+j)`, `zNW[i,j] = pad(i, j)`,
`zSE[i,j] = pad(2*inc+i, 2*inc+j)`; then
`c_diag = (4z - zSW - zNE - zNW - zSE) / (sqrt 2 * 16 * inc * deltaxy)` and
`c_cross = (4z - zW - zE - zN - zS) / (16 * inc * deltaxy)` are summed. -/
noncomputable def rawCurv (ny nx inc : ℕ) (dxy : ℝ) (dem : ℕ → ℕ → Option ℝ)
    (i j : ℕ) : Option ℝ :=
  oAdd
    (oDivC
      (oSub (oSub (oSub (oSub (oSMul 4 (demPad ny nx inc dem (inc + i) (inc + j)))
        (demPad ny nx inc dem (2 * inc + i) j))
        (demPad ny nx inc dem i (2 * inc + j)))
        (demPad ny nx inc dem i j))
        (demPad ny nx inc dem (2 * inc + i) (2 * inc + j)))
      (Real.sqrt 2 * 16 * inc * dxy))
    (oDivC
      (oSub (oSub (oSub (oSub (oSMul 4 (demPad ny nx inc dem (inc + i) (inc + j)))
        (demPad ny nx inc dem (inc + i) j))
        (demPad ny nx inc dem (inc + i) (2 * inc + j)))
        (demPad ny nx inc dem i (inc + j)))
        (demPad ny nx inc dem (2 * inc + i) (inc + j)))
      (16 * inc * dxy))

/-- Source: `curvature[np.isnan(z)] = np.nan` — the center sample forces an
undefined result (the arithmetic already propagates it; the assignment is
kept for faithfulness). -/
noncomputable def rawCurvM (ny nx inc : ℕ) (dxy : ℝ) (dem : ℕ → ℕ → Option ℝ)
    (i j : ℕ) : Option ℝ :=
  match demPad ny nx inc dem (inc + i) (inc + j) with
  | none => none
  | some _ => rawCurv ny nx inc dxy dem i j

/-- Defined raw-curvature values of the cropped block, row major
(the block has shape `common_shape = (min inc ny, min inc nx)`). -/
noncomputable def rawList (ny nx inc : ℕ) (dxy : ℝ) (dem : ℕ → ℕ → Option ℝ) :
    List ℝ :=
  (List.range (min inc ny)).flatMap fun i =>
    (List.range (min inc nx)).filterMap fun j => rawCurvM ny nx inc dxy dem i j

/-- Source: `curve_max = max(0.001, np.nanmax(np.abs(curvature)))`. -/
noncomputable def curveMax (ny nx inc : ℕ) (dxy : ℝ) (dem : ℕ → ℕ → Option ℝ) : ℝ :=
  max 0.001 ((rawList ny nx inc dxy dem).foldr (fun v m => max |v| m) 0)

/-- Source: `curvature /= (2.0 * curve_max)`. -/
noncomputable def normCurv (ny nx inc : ℕ) (dxy : ℝ) (dem : ℕ → ℕ → Option ℝ)
    (i j : ℕ) : Option ℝ :=
  (rawCurvM ny nx inc dxy dem i j).map
    (fun v => v / (2 * curveMax ny nx inc dxy dem))

/-- Source: `full_curv = np.full_like(dem, np.nan)` and
`full_curv[inc:inc + valid_shape[0], inc:inc + valid_shape[1]] = curvature`
(numpy clips the assignment to the `(ny, nx)` array). -/
noncomputable def fullCurv (ny nx inc : ℕ) (dxy : ℝ) (dem : ℕ → ℕ → Option ℝ)
    (r c : ℕ) : Option ℝ :=
  if r < ny ∧ c < nx ∧ inc ≤ r ∧ inc ≤ c ∧
      r - inc < min inc ny ∧ c - inc < min inc nx then
    normCurv ny nx inc dxy dem (r - inc) (c - inc)
  else
    none

/-- Pixel grid written to `curvature.tif` by `compute_topographic_curvature`
for a DEM raster, a length scale `L` and an optional nodata sentinel. -/
noncomputable def curvatureGrid (r : Raster) (L : ℚ) (nodata : Option ℝ) :
    ℕ → ℕ → Option ℝ :=
  fullCurv r.ny r.nx (incOf L (meanCellSize r.gt)) ((meanCellSize r.gt : ℚ) : ℝ)
    (maskNodata nodata r.data)

noncomputable def curvatureRaster (r : Raster) (L : ℚ) (nodata : Option ℝ) :
    Raster :=
  { ny := r.ny, nx := r.nx, data := curvatureGrid r L nodata, gt := r.gt }

/-! ## Filesystem-level model of `compute_topographic_curvature`

The function first checks for an existing output at the canonical path and
returns early; otherwise it opens the DEM (failure if absent) and writes the
curvature raster.  Directory creation has no observable effect here. -/

def pathJoin (a b : String) : String := a ++ "/" ++ b

def FileSys : Type := String → Option Raster

def curvaturePath (wd : String) : String :=
  pathJoin (pathJoin (pathJoin wd "inputs") "dem") "curvature.tif"

noncomputable def compute_topographic_curvature (dem_path wd : String) (L : ℚ)
    (nodata : Option ℝ) (fs : FileSys) : Option (String × FileSys) :=
  if (fs (curvaturePath wd)).isSome then some (curvaturePath wd, fs)
  else
    match fs dem_path with
    | none => none
    | some dem =>
        some (curvaturePath wd,
          fun s => if s = curvaturePath wd then some (curvatureRaster dem L nodata)
                   else fs s)

/-! ## Flag parsing and the per-month runner -/

/-- Source: `parse_yes_no_flag` in src/utils.py; a raised `ValueError` is
modelled as `Except.error`. -/
def parse_yes_no_flag (value : String) (var_name : String) : Except String Bool :=
  if value = "y" then Except.ok true
  else if value = "n" then Except.ok false
  else Except.error ("Invalid value for " ++ var_name ++ ": " ++ value ++
    ". Expected y or n.")

inductive DownscaleOp where
  | temperature
  | sw
  | rh
  | precipitation
  | wind
deriving DecidableEq

def flagKeys : List String :=
  ["t_air", "sw_radiation", "relative_humidity", "precipitation", "wind"]

/-- Source: `run_month` in src/main_micromet.py.  Each enabled operator call
is recorded as a pair of the operator and the output folder it writes under;
a `ValueError` raised by a flag parse aborts the whole call. -/
def run_month (wd : String) (vars : String → Option String) :
    Except String (List (DownscaleOp × String)) :=
  match parse_yes_no_flag ((vars "t_air").getD "n") "t_air" with
  | Except.error m => Except.error m
  | Except.ok t =>
    match parse_yes_no_flag ((vars "sw_radiation").getD "n") "sw_radiation" with
    | Except.error m => Except.error m
    | Except.ok s =>
      match parse_yes_no_flag ((vars "relative_humidity").getD "n")
          "relative_humidity" with
      | Except.error m => Except.error m
      | Except.ok r =>
        match parse_yes_no_flag ((vars "precipitation").getD "n")
            "precipitation" with
        | Except.error m => Except.error m
        | Except.ok p =>
          match parse_yes_no_flag ((vars "wind").getD "n") "wind" with
          | Except.error m => Except.error m
          | Except.ok w =>
            Except.ok
              ((if t then
                  [(DownscaleOp.temperature,
                    pathJoin (pathJoin wd "outputs") "Temperature")] else [])
               ++ (if s then
                  [(DownscaleOp.sw, pathJoin (pathJoin wd "outputs") "SW")]
                 else [])
               ++ (if r then
                  [(DownscaleOp.rh, pathJoin (pathJoin wd "outputs") "RH")]
                 else [])
               ++ (if p then
                  [(DownscaleOp.precipitation,
                    pathJoin (pathJoin wd "outputs") "P")] else [])
               ++ (if w then
                  [(DownscaleOp.wind, pathJoin (pathJoin wd "outputs") "Wind")]
                 else []))

/-! ## Output writer -/

structure DataArrayM where
  dims : List String
  data : List (ℕ → ℕ → ℝ)
  units : String
  description : String

structure DatasetM where
  vars : List (String × DataArrayM)
  x_coords : List ℚ
  y_coords : List ℚ
  times : List ℕ

/-- Source: `write_downscaled_to_netcdf` in src/utils.py.  Each entry of
`variables_dict` is `(var_name, (data_list, units, description))`; the time
stack is the list of per-time-step fields; coordinates follow
`np.arange(width) * transform.a + transform.c + transform.a / 2` and
`np.arange(height) * transform.e + transform.f + transform.e / 2`. -/
def write_downscaled_to_netcdf
    (variables_dict : List (String × (List (ℕ → ℕ → ℝ) × String × String)))
    (time_list : List ℕ) (dem_shape : ℕ × ℕ) (gt : GeoTransform) : DatasetM :=
  { vars := variables_dict.map (fun entry =>
      (entry.1,
        { dims := ["time", "y", "x"],
          data := entry.2.1,
          units := entry.2.2.1,
          description := entry.2.2.2 })),
    x_coords := (List.range dem_shape.2).map
      (fun i : ℕ => (i : ℚ) * gt.a + gt.c + gt.a / 2),
    y_coords := (List.range dem_shape.1).map
      (fun j : ℕ => (j : ℚ) * gt.e + gt.f + gt.e / 2),
    times := time_list }

/-! ## Top-level pipeline trace of `run_micropezzomet` -/

structure Config where
  working_directory : String
  dem_file : String
  era_file : Option String
  dem_nodata : Option ℝ

inductive PipelineCall where
  | createFolders (base : String)
  | getEra5 (outputDir : String)
  | computeSlopeAspect (demPath wd : String)
  | computeCurvature (demPath wd : String) (L : ℚ) (nodata : Option ℝ)
  | runMonth (file : String)

/-- Source: the body of `run_micropezzomet` in src/main_micromet.py, as the
ordered list of calls it issues; the curvature call is
`compute_topographic_curvature(dem_path, working_directory)`, relying on the
defaults `L=1000` and `dem_nodata=None`. -/
def run_micropezzomet_trace (cfg : Config) (climateFiles : List String) :
    List PipelineCall :=
  [PipelineCall.createFolders cfg.working_directory]
  ++ (match cfg.era_file with
      | none => [PipelineCall.getEra5
          (pathJoin cfg.working_directory "inputs/climate")]
      | some _ => [])
  ++ [PipelineCall.computeSlopeAspect cfg.dem_file cfg.working_directory,
      PipelineCall.computeCurvature cfg.dem_file cfg.working_directory 1000 none]
  ++ climateFiles.map PipelineCall.runMonth

def curvatureCallArgs : PipelineCall → Option (String × String × ℚ × Option ℝ)
  | PipelineCall.computeCurvature d w L n => some (d, w, L, n)
  | _ => none

/-! ## Spec-side variant of the sample-offset formula (for refinement) -/

/-- Modelled from the spec words for claim C4: `meanCellSize` is "the average
of the absolute pixel width and the absolute pixel height". -/
def meanCellSizeSpec (gt : GeoTransform) : ℚ := (|gt.a| + |gt.e|) / 2

/-- Modelled from the spec words for claim C4:
`inc = max(1, round(L / meanCellSize))` with absolute cell sizes. -/
def incSpec (L : ℚ) (gt : GeoTransform) : ℕ :=
  max 1 (pythonRound (L / meanCellSizeSpec gt)).toNat

/-- The offset the code computes, as a function of the geotransform. -/
def incCode (L : ℚ) (gt : GeoTransform) : ℕ := incOf L (meanCellSize gt)

/-- Definedness of the nine padded-array samples entering the curvature
stencil of block pixel `(i, j)` (grouped exactly as the arithmetic groups
them). -/
def stencilDefined (ny nx inc : ℕ) (dem : ℕ → ℕ → Option ℝ) (i j : ℕ) : Bool :=
  ((demPad ny nx inc dem (inc + i) (inc + j)).isSome &&
   (demPad ny nx inc dem (2 * inc + i) j).isSome &&
   (demPad ny nx inc dem i (2 * inc + j)).isSome &&
   (demPad ny nx inc dem i j).isSome &&
   (demPad ny nx inc dem (2 * inc + i) (2 * inc + j)).isSome) &&
  ((demPad ny nx inc dem (inc + i) (inc + j)).isSome &&
   (demPad ny nx inc dem (inc + i) j).isSome &&
   (demPad ny nx inc dem (inc + i) (2 * inc + j)).isSome &&
   (demPad ny nx inc dem i (inc + j)).isSome &&
   (demPad ny nx inc dem (2 * inc + i) (inc + j)).isSome)

/-! ## Concrete inputs used in counterexamples and witnesses -/

/-- A 2×2 DEM holding the constant elevation 5, with 1000-unit square pixels
(so `inc = 1` at the default length scale `L = 1000`). -/
noncomputable def demConst : Raster :=
  { ny := 2, nx := 2, data := fun _ _ => some 5,
    gt := { a := 1000, e := -1000, c := 0, f := 0 } }

/-- A 2×2 DEM whose cell (1,1) holds the nodata sentinel value -9999 and
whose other cells hold the elevation 1. -/
noncomputable def demNod : Raster :=
  { ny := 2, nx := 2,
    data := fun i j => if i = 1 ∧ j = 1 then some (-9999) else some 1,
    gt := { a := 1000, e := -1000, c := 0, f := 0 } }

/-- A geotransform with positive pixel height entry (`e = 1`), on which the
code's `deltaxy` (no absolute values) differs from the spec formula. -/
def gtFlipped : GeoTransform := { a := 3, e := 1, c := 0, f := 0 }

/-- A filesystem that already holds a curvature file for the working
directory "/wd". -/
noncomputable def fsCached : FileSys :=
  fun s => if s = curvaturePath "/wd" then some demConst else none

/-- Enable-flag mapping turning on only air temperature. -/
def varsOnlyT : String → Option String :=
  fun k => if k = "t_air" then some "y" else some "n"

/-! # Helper lemmas -/

theorem oAdd_isSome (x y : Option ℝ) :
    (oAdd x y).isSome = (x.isSome && y.isSome) := by
  cases x <;> cases y <;> rfl

theorem oSub_isSome (x y : Option ℝ) :
    (oSub x y).isSome = (x.isSome && y.isSome) := by
  cases x <;> cases y <;> rfl

theorem oSMul_isSome (c : ℝ) (x : Option ℝ) : (oSMul c x).isSome = x.isSome := by
  cases x <;> rfl

theorem oDivC_isSome (x : Option ℝ) (d : ℝ) : (oDivC x d).isSome = x.isSome := by
  cases x <;> rfl

theorem rawCurvM_isSome (ny nx inc : ℕ) (dxy : ℝ) (dem : ℕ → ℕ → Option ℝ)
    (i j : ℕ) :
    (rawCurvM ny nx inc dxy dem i j).isSome = stencilDefined ny nx inc dem i j := by
  unfold rawCurvM stencilDefined
  cases h : demPad ny nx inc dem (inc + i) (inc + j) with
  | none => simp
  | some a => simp [rawCurv, oAdd_isSome, oDivC_isSome, oSub_isSome, oSMul_isSome, h]

theorem maskNodata_none (g : ℕ → ℕ → Option ℝ) : maskNodata none g = g := rfl

theorem one_le_incOf (L dxy : ℚ) : 1 ≤ incOf L dxy := le_max_left _ _

theorem fullCurv_row0 (ny nx inc : ℕ) (dxy : ℝ) (dem : ℕ → ℕ → Option ℝ)
    (c : ℕ) (h : 1 ≤ inc) : fullCurv ny nx inc dxy dem 0 c = none := by
  unfold fullCurv
  exact if_neg (fun hc => absurd hc.2.2.1 (by omega))

theorem incOf_eval : incOf 1000 1000 = 1 := by
  have h : (1000 : ℚ) / 1000 = 1 := by norm_num
  unfold incOf pythonRound
  rw [h]
  norm_num

theorem meanCellSize_demConst : meanCellSize demConst.gt = 1000 := by
  norm_num [meanCellSize, demConst]

theorem rawCurvM_const (dxy : ℝ) (i j : ℕ) :
    rawCurvM 2 2 1 dxy (fun _ _ => some (5 : ℝ)) i j = some 0 := by
  show rawCurv 2 2 1 dxy (fun _ _ => some (5 : ℝ)) i j = some 0
  unfold rawCurv
  simp [demPad, oSMul, oSub, oAdd, oDivC]
  norm_num

theorem rawList_const (dxy : ℝ) :
    rawList 2 2 1 dxy (fun _ _ => some (5 : ℝ)) = [0] := by
  simp [rawList, rawCurvM_const, show List.range 1 = [0] from rfl,
    List.filterMap_cons]

theorem curveMax_const (dxy : ℝ) :
    curveMax 2 2 1 dxy (fun _ _ => some (5 : ℝ)) = 0.001 := by
  simp [curveMax, rawList_const]
  norm_num

theorem fullCurv_const (dxy : ℝ) :
    fullCurv 2 2 1 dxy (fun _ _ => some (5 : ℝ)) 1 1 = some 0 := by
  unfold fullCurv
  rw [if_pos (by omega)]
  simp [normCurv, rawCurvM_const, curveMax_const]

theorem curvGrid_demConst_none : curvatureGrid demConst 1000 none 0 0 = none := by
  unfold curvatureGrid
  exact fullCurv_row0 _ _ _ _ _ 0 (one_le_incOf _ _)

theorem curvGrid_demConst_eval : curvatureGrid demConst 1000 none 1 1 = some 0 := by
  unfold curvatureGrid
  rw [maskNodata_none, meanCellSize_demConst, incOf_eval]
  exact fullCurv_const _

theorem foldr_abs_max_le {l : List ℝ} {x : ℝ} (hx : x ∈ l) :
    |x| ≤ l.foldr (fun v m => max |v| m) 0 := by
  induction l with
  | nil => cases hx
  | cons a t ih =>
    rcases List.mem_cons.1 hx with h | h
    · subst h; exact le_max_left _ _
    · exact le_trans (ih h) (le_max_right _ _)

theorem fullCurv_bounded (ny nx inc : ℕ) (dxy : ℝ) (dem : ℕ → ℕ → Option ℝ)
    (r c : ℕ) (v : ℝ) (h : fullCurv ny nx inc dxy dem r c = some v) :
    -(1/2 : ℝ) ≤ v ∧ v ≤ 1/2 := by
  unfold fullCurv at h
  by_cases hcond : r < ny ∧ c < nx ∧ inc ≤ r ∧ inc ≤ c ∧
      r - inc < min inc ny ∧ c - inc < min inc nx
  case neg => rw [if_neg hcond] at h; cases h
  case pos =>
    rw [if_pos hcond] at h
    unfold normCurv at h
    rcases Option.map_eq_some'.1 h with ⟨w, hw, hv⟩
    have hmem : w ∈ rawList ny nx inc dxy dem := by
      unfold rawList
      exact List.mem_flatMap.2 ⟨r - inc, List.mem_range.2 hcond.2.2.2.2.1,
        List.mem_filterMap.2 ⟨c - inc, List.mem_range.2 hcond.2.2.2.2.2, hw⟩⟩
    have habs : |w| ≤ (rawList ny nx inc dxy dem).foldr (fun v m => max |v| m) 0 :=
      foldr_abs_max_le hmem
    have hM1 : (0.001 : ℝ) ≤ curveMax ny nx inc dxy dem := le_max_left _ _
    have hwM : |w| ≤ curveMax ny nx inc dxy dem :=
      le_trans habs (le_max_right _ _)
    have hMpos : 0 < curveMax ny nx inc dxy dem :=
      lt_of_lt_of_le (by norm_num) hM1
    subst hv
    rw [← abs_le]
    have habs2 : |w / (2 * curveMax ny nx inc dxy dem)| =
        |w| / (2 * curveMax ny nx inc dxy dem) := by
      rw [abs_div, abs_of_pos (by linarith : (0:ℝ) < 2 * curveMax ny nx inc dxy dem)]
    rw [habs2]
    calc |w| / (2 * curveMax ny nx inc dxy dem)
        ≤ curveMax ny nx inc dxy dem / (2 * curveMax ny nx inc dxy dem) := by
          gcongr
      _ = 1/2 := by
          rw [div_eq_iff (by linarith : (2 : ℝ) * curveMax ny nx inc dxy dem ≠ 0)]
          ring

/-! # Claim theorems -/

/-- C1: the spec requires the curvature of a constant, nodata-free DEM to be
zero at every pixel.  Evaluating the embedded code on a constant 2×2 DEM
(inc = 1) shows the output is undefined at pixel (0,0) — only the displaced
`min(inc,ny) × min(inc,nx)` block starting at `(inc, inc)` ever receives a
value — while the one covered pixel (1,1) does hold 0. -/
theorem constant_dem_curvature_eval :
    curvatureGrid demConst 1000 none 0 0 = none ∧
    curvatureGrid demConst 1000 none 1 1 = some 0 :=
  ⟨curvGrid_demConst_none, curvGrid_demConst_eval⟩

/-- C2 counterexample: a 2×2 DEM whose only nodata cell is (1,1); the claim
says curvature is defined at pixel (0,0), but the code leaves it undefined. -/
theorem curvature_nodata_mismatch :
    demNod.data 0 0 = some 1 ∧ ((1 : ℝ) ≠ -9999) ∧
    curvatureGrid demNod 1000 (some (-9999)) 0 0 = none := by
  refine ⟨by simp [demNod], by norm_num, ?_⟩
  unfold curvatureGrid
  exact fullCurv_row0 _ _ _ _ _ 0 (one_le_incOf _ _)

/-- C2 (amended): whenever the computed block fits inside the grid
(`2*inc ≤ ny` and `2*inc ≤ nx`; otherwise the numpy block assignment fails
with a shape mismatch), a pixel of the curvature raster is defined iff it
lies in the displaced computed block (rows `[inc, inc + min(inc,ny))`,
columns `[inc, inc + min(inc,nx))`) and all nine clamped-padding stencil
samples of source pixel `(r - inc, c - inc)` are defined; definedness is
therefore not "exactly at non-nodata pixels". -/
theorem curvature_defined_characterization (ny nx inc : ℕ) (dxy : ℝ)
    (dem : ℕ → ℕ → Option ℝ) (r c : ℕ) (h2y : 2 * inc ≤ ny) (h2x : 2 * inc ≤ nx) :
    (fullCurv ny nx inc dxy dem r c).isSome = true ↔
      (r < ny ∧ c < nx ∧ inc ≤ r ∧ inc ≤ c ∧
       r - inc < min inc ny ∧ c - inc < min inc nx ∧
       stencilDefined ny nx inc dem (r - inc) (c - inc) = true) := by
  unfold fullCurv
  by_cases hcond : r < ny ∧ c < nx ∧ inc ≤ r ∧ inc ≤ c ∧
      r - inc < min inc ny ∧ c - inc < min inc nx
  · rw [if_pos hcond]
    simp only [normCurv, Option.isSome_map', rawCurvM_isSome]
    constructor
    · intro h
      exact ⟨hcond.1, hcond.2.1, hcond.2.2.1, hcond.2.2.2.1,
        hcond.2.2.2.2.1, hcond.2.2.2.2.2, h⟩
    · intro h
      exact h.2.2.2.2.2.2
  · rw [if_neg hcond]
    simp only [Option.isSome_none, Bool.false_eq_true, false_iff]
    intro h
    exact hcond ⟨h.1, h.2.1, h.2.2.1, h.2.2.2.1, h.2.2.2.2.1, h.2.2.2.2.2.1⟩

/-- Witness for the C2 characterization: the constant 2×2 DEM at pixel
(1,1) with offset 1. -/
theorem curvature_defined_characterization_witness :
    2 * 1 ≤ 2 ∧ 2 * 1 ≤ 2 ∧
    ((fullCurv 2 2 1 1000 (fun _ _ => some (5 : ℝ)) 1 1).isSome = true ↔
      (1 < 2 ∧ 1 < 2 ∧ 1 ≤ 1 ∧ 1 ≤ 1 ∧ 1 - 1 < min 1 2 ∧ 1 - 1 < min 1 2 ∧
       stencilDefined 2 2 1 (fun _ _ => some (5 : ℝ)) (1 - 1) (1 - 1) = true)) :=
  ⟨by omega, by omega,
    curvature_defined_characterization 2 2 1 1000 (fun _ _ => some (5 : ℝ)) 1 1
      (by omega) (by omega)⟩

/-- C3: every defined value of the curvature raster lies in [-1/2, 1/2],
because each raw value is divided by twice the maximum absolute raw
curvature (floored at 0.001). -/
theorem curvature_values_bounded (r : Raster) (L : ℚ) (nodata : Option ℝ)
    (rr cc : ℕ) (v : ℝ) (h : curvatureGrid r L nodata rr cc = some v) :
    -(1/2 : ℝ) ≤ v ∧ v ≤ 1/2 :=
  fullCurv_bounded _ _ _ _ _ _ _ _ h

/-- Witness for C3: the constant 2×2 DEM yields the defined value 0 at pixel
(1,1), and the bound holds there. -/
theorem curvature_values_bounded_witness :
    curvatureGrid demConst 1000 none 1 1 = some 0 ∧
    (-(1/2 : ℝ) ≤ 0 ∧ (0 : ℝ) ≤ 1/2) :=
  ⟨curvGrid_demConst_eval,
    curvature_values_bounded demConst 1000 none 1 1 0 curvGrid_demConst_eval⟩

theorem parse_y (v : String) : parse_yes_no_flag "y" v = Except.ok true := rfl

theorem parse_n (v : String) : parse_yes_no_flag "n" v = Except.ok false := rfl

theorem parse_bad (s v : String) (h1 : s ≠ "y") (h2 : s ≠ "n") :
    parse_yes_no_flag s v = Except.error
      ("Invalid value for " ++ v ++ ": " ++ s ++ ". Expected y or n.") := by
  unfold parse_yes_no_flag
  rw [if_neg h1, if_neg h2]

/-- C5: if the curvature output file already exists at the canonical path,
`compute_topographic_curvature` performs no computation and returns that path
with the filesystem unchanged; consequently a second invocation right after
a first one is a no-op returning the same path. -/
theorem curvature_cache_idempotent (dem_path wd : String) (L : ℚ)
    (nodata : Option ℝ) (fs : FileSys) :
    ((fs (curvaturePath wd)).isSome = true →
      compute_topographic_curvature dem_path wd L nodata fs =
        some (curvaturePath wd, fs)) ∧
    (∀ p1 fs1,
      compute_topographic_curvature dem_path wd L nodata fs = some (p1, fs1) →
      p1 = curvaturePath wd ∧
      compute_topographic_curvature dem_path wd L nodata fs1 = some (p1, fs1)) := by
  constructor
  · intro h
    unfold compute_topographic_curvature
    rw [if_pos h]
  · intro p1 fs1 hrun
    unfold compute_topographic_curvature at hrun ⊢
    by_cases hex : (fs (curvaturePath wd)).isSome = true
    · rw [if_pos hex] at hrun
      have h2 := Option.some.inj hrun
      have hp : p1 = curvaturePath wd := (congrArg Prod.fst h2).symm
      have hf : fs1 = fs := (congrArg Prod.snd h2).symm
      subst hp; subst hf
      exact ⟨rfl, by rw [if_pos hex]⟩
    · rw [if_neg hex] at hrun
      cases hdem : fs dem_path with
      | none => rw [hdem] at hrun; cases hrun
      | some dem =>
        rw [hdem] at hrun
        have h2 := Option.some.inj hrun
        have hp : p1 = curvaturePath wd := (congrArg Prod.fst h2).symm
        have hf : fs1 = fun s =>
            if s = curvaturePath wd then some (curvatureRaster dem L nodata)
            else fs s := (congrArg Prod.snd h2).symm
        subst hp; subst hf
        refine ⟨rfl, ?_⟩
        simp

/-- Witness for C5: a filesystem already holding a curvature file at the
canonical path for "/wd"; the call returns that path and the unchanged
filesystem. -/
theorem curvature_cache_idempotent_witness :
    (fsCached (curvaturePath "/wd")).isSome = true ∧
    compute_topographic_curvature "/dem.tif" "/wd" 1000 none fsCached =
      some (curvaturePath "/wd", fsCached) := by
  have h : (fsCached (curvaturePath "/wd")).isSome = true := by
    unfold fsCached
    rw [if_pos rfl]
    rfl
  exact ⟨h, (curvature_cache_idempotent "/dem.tif" "/wd" 1000 none fsCached).1 h⟩

/-- C6: `parse_yes_no_flag` accepts exactly "y" (true) and "n" (false) and
fails on every other string, and `run_month` applies it to each enable flag,
so a flag value other than "y"/"n" anywhere in the mapping makes the whole
monthly run fail rather than being silently interpreted. -/
theorem parse_yes_no_flag_spec (v : String) :
    parse_yes_no_flag "y" v = Except.ok true ∧
    parse_yes_no_flag "n" v = Except.ok false ∧
    (∀ s : String, s ≠ "y" → s ≠ "n" →
      ∃ m, parse_yes_no_flag s v = Except.error m) ∧
    (∀ (wd : String) (vars : String → Option String) (k s : String),
      k ∈ flagKeys → vars k = some s → s ≠ "y" → s ≠ "n" →
      ∃ m, run_month wd vars = Except.error m) := by
  refine ⟨parse_y v, parse_n v, ?_, ?_⟩
  · intro s h1 h2
    exact ⟨_, parse_bad s v h1 h2⟩
  · intro wd vars k s hk hs h1 h2
    simp only [flagKeys, List.mem_cons, List.not_mem_nil, or_false] at hk
    unfold run_month
    rcases hk with rfl | rfl | rfl | rfl | rfl
    · refine ⟨"Invalid value for " ++ "t_air" ++ ": " ++ s ++
        ". Expected y or n.", ?_⟩
      rw [hs, Option.getD_some, parse_bad s "t_air" h1 h2]
    · cases h1t : parse_yes_no_flag ((vars "t_air").getD "n") "t_air" with
      | error m => exact ⟨m, by simp only [h1t]⟩
      | ok b1 =>
        refine ⟨"Invalid value for " ++ "sw_radiation" ++ ": " ++ s ++
          ". Expected y or n.", ?_⟩
        simp only [h1t, hs, Option.getD_some, parse_bad s "sw_radiation" h1 h2]
    · cases h1t : parse_yes_no_flag ((vars "t_air").getD "n") "t_air" with
      | error m => exact ⟨m, by simp only [h1t]⟩
      | ok b1 =>
        cases h2t : parse_yes_no_flag ((vars "sw_radiation").getD "n")
            "sw_radiation" with
        | error m => exact ⟨m, by simp only [h1t, h2t]⟩
        | ok b2 =>
          refine ⟨"Invalid value for " ++ "relative_humidity" ++ ": " ++ s ++
            ". Expected y or n.", ?_⟩
          simp only [h1t, h2t, hs, Option.getD_some,
            parse_bad s "relative_humidity" h1 h2]
    · cases h1t : parse_yes_no_flag ((vars "t_air").getD "n") "t_air" with
      | error m => exact ⟨m, by simp only [h1t]⟩
      | ok b1 =>
        cases h2t : parse_yes_no_flag ((vars "sw_radiation").getD "n")
            "sw_radiation" with
        | error m => exact ⟨m, by simp only [h1t, h2t]⟩
        | ok b2 =>
          cases h3t : parse_yes_no_flag ((vars "relative_humidity").getD "n")
              "relative_humidity" with
          | error m => exact ⟨m, by simp only [h1t, h2t, h3t]⟩
          | ok b3 =>
            refine ⟨"Invalid value for " ++ "precipitation" ++ ": " ++ s ++
              ". Expected y or n.", ?_⟩
            simp only [h1t, h2t, h3t, hs, Option.getD_some,
              parse_bad s "precipitation" h1 h2]
    · cases h1t : parse_yes_no_flag ((vars "t_air").getD "n") "t_air" with
      | error m => exact ⟨m, by simp only [h1t]⟩
      | ok b1 =>
        cases h2t : parse_yes_no_flag ((vars "sw_radiation").getD "n")
            "sw_radiation" with
        | error m => exact ⟨m, by simp only [h1t, h2t]⟩
        | ok b2 =>
          cases h3t : parse_yes_no_flag ((vars "relative_humidity").getD "n")
              "relative_humidity" with
          | error m => exact ⟨m, by simp only [h1t, h2t, h3t]⟩
          | ok b3 =>
            cases h4t : parse_yes_no_flag ((vars "precipitation").getD "n")
                "precipitation" with
            | error m => exact ⟨m, by simp only [h1t, h2t, h3t, h4t]⟩
            | ok b4 =>
              refine ⟨"Invalid value for " ++ "wind" ++ ": " ++ s ++
                ". Expected y or n.", ?_⟩
              simp only [h1t, h2t, h3t, h4t, hs, Option.getD_some,
                parse_bad s "wind" h1 h2]

/-- Witness for C6: the flag value "maybe" for t_air is rejected by the
parser and aborts the monthly run. -/
theorem parse_yes_no_flag_spec_witness :
    (∃ m, parse_yes_no_flag "maybe" "t_air" = Except.error m) ∧
    (∃ m, run_month "/wd" (fun k => if k = "t_air" then some "maybe" else none) =
      Except.error m) := by
  constructor
  · exact (parse_yes_no_flag_spec "t_air").2.2.1 "maybe" (by simp) (by simp)
  · exact (parse_yes_no_flag_spec "t_air").2.2.2 "/wd"
      (fun k => if k = "t_air" then some "maybe" else none) "t_air" "maybe"
      (by simp [flagKeys]) (by simp) (by simp) (by simp)

/-- C8: with t_air enabled and every other flag "n", `run_month` invokes
exactly the temperature operator, writing only under the Temperature output
folder. -/
theorem run_month_only_temperature (wd : String) (vars : String → Option String)
    (ht : vars "t_air" = some "y") (hsw : vars "sw_radiation" = some "n")
    (hrh : vars "relative_humidity" = some "n")
    (hpr : vars "precipitation" = some "n") (hwi : vars "wind" = some "n") :
    run_month wd vars = Except.ok
      [(DownscaleOp.temperature, pathJoin (pathJoin wd "outputs") "Temperature")] ∧
    (∀ acts, run_month wd vars = Except.ok acts →
      ∀ a ∈ acts, a.2 = pathJoin (pathJoin wd "outputs") "Temperature") := by
  have hmain : run_month wd vars = Except.ok
      [(DownscaleOp.temperature, pathJoin (pathJoin wd "outputs") "Temperature")] := by
    unfold run_month
    simp only [ht, hsw, hrh, hpr, hwi, Option.getD_some, parse_y, parse_n]
    simp
  refine ⟨hmain, ?_⟩
  intro acts ha a hmem
  rw [hmain] at ha
  injection ha with h
  subst h
  simp only [List.mem_singleton] at hmem
  subst hmem
  rfl

/-- Witness for C8: the concrete mapping enabling only t_air. -/
theorem run_month_only_temperature_witness :
    varsOnlyT "t_air" = some "y" ∧
    run_month "/wd" varsOnlyT = Except.ok
      [(DownscaleOp.temperature, pathJoin (pathJoin "/wd" "outputs") "Temperature")] :=
  ⟨rfl, (run_month_only_temperature "/wd" varsOnlyT rfl rfl rfl rfl rfl).1⟩

/-- C9: an absent enable flag defaults to "n" — no operator runs for it and
no missing-key error is raised; supplying "n" explicitly for that key gives
the identical result. -/
theorem run_month_missing_flag_defaults (wd : String)
    (vars : String → Option String) :
    (run_month wd (fun _ => none) = Except.ok []) ∧
    (∀ k, k ∈ flagKeys → vars k = none →
      run_month wd vars =
        run_month wd (fun q => if q = k then some "n" else vars q)) := by
  constructor
  · rfl
  · intro k hk hnone
    simp only [flagKeys, List.mem_cons, List.not_mem_nil, or_false] at hk
    rcases hk with rfl | rfl | rfl | rfl | rfl <;>
      simp [run_month, hnone]

/-- Witness for C9: with every flag absent the run succeeds with no actions,
and an absent wind flag behaves like an explicit "n". -/
theorem run_month_missing_flag_defaults_witness :
    run_month "/wd" (fun _ => none) = Except.ok [] ∧
    run_month "/wd" (fun _ => (none : Option String)) =
      run_month "/wd" (fun q => if q = "wind" then some "n" else none) :=
  ⟨(run_month_missing_flag_defaults "/wd" (fun _ => none)).1,
    (run_month_missing_flag_defaults "/wd" (fun _ => none)).2 "wind"
      (by simp [flagKeys]) rfl⟩

theorem pythonRound_int (n : ℤ) : pythonRound (n : ℚ) = n := by
  unfold pythonRound
  rw [Int.floor_intCast]
  norm_num

theorem incCode_gtFlipped : incCode 1000 gtFlipped = 1000 := by
  unfold incCode incOf
  have hm : meanCellSize gtFlipped = 1 := by norm_num [meanCellSize, gtFlipped]
  rw [hm]
  have hq : (1000 : ℚ) / 1 = ((1000 : ℤ) : ℚ) := by norm_num
  rw [hq, pythonRound_int]
  rfl

theorem incSpec_gtFlipped : incSpec 1000 gtFlipped = 500 := by
  unfold incSpec
  have hm : meanCellSizeSpec gtFlipped = 2 := by
    norm_num [meanCellSizeSpec, gtFlipped]
  rw [hm]
  have hq : (1000 : ℚ) / 2 = ((500 : ℤ) : ℚ) := by norm_num
  rw [hq, pythonRound_int]
  rfl

/-- C4 counterexample: on the geotransform with pixel width 3 and pixel
height entry +1 the code offset (from `0.5 * (a + (-e))`, no absolute
values) is 1000 while the claimed absolute-value formula gives 500. -/
theorem inc_formula_mismatch : incCode 1000 gtFlipped ≠ incSpec 1000 gtFlipped := by
  rw [incCode_gtFlipped, incSpec_gtFlipped]
  omega

/-- C4 (amended): the code computes `inc = max(1, round(L / deltaxy))` with
`deltaxy = (a + (-e)) / 2` — pixel width plus negated pixel height, no
absolute values; this agrees with the claimed absolute-value formula exactly
when the pixel width is nonnegative and the raw pixel height entry is
nonpositive (the usual north-up orientation). -/
theorem inc_formula_agrees_on_standard_orientation (L : ℚ) (gt : GeoTransform)
    (ha : 0 ≤ gt.a) (he : gt.e ≤ 0) : incCode L gt = incSpec L gt := by
  unfold incCode incOf incSpec
  have h : meanCellSize gt = meanCellSizeSpec gt := by
    unfold meanCellSize meanCellSizeSpec
    rw [abs_of_nonneg ha, abs_of_nonpos he]
  rw [h]

/-- Witness for C4 (amended): the standard north-up geotransform of
`demConst` satisfies the sign conditions and the two formulas agree. -/
theorem inc_formula_agrees_witness :
    (0 : ℚ) ≤ demConst.gt.a ∧ demConst.gt.e ≤ 0 ∧
    incCode 1000 demConst.gt = incSpec 1000 demConst.gt :=
  ⟨by norm_num [demConst], by norm_num [demConst],
    inc_formula_agrees_on_standard_orientation 1000 demConst.gt
      (by norm_num [demConst]) (by norm_num [demConst])⟩

/-- C7: the written dataset has one array per variable, each with dims
(time, y, x) and the units/description attributes of its input entry, and
pixel-center coordinates `i * pixelWidth + originX + pixelWidth/2` and
`j * pixelHeight + originY + pixelHeight/2`. -/
theorem write_downscaled_contract
    (variables_dict : List (String × (List (ℕ → ℕ → ℝ) × String × String)))
    (time_list : List ℕ) (height width : ℕ) (gt : GeoTransform) :
    ((write_downscaled_to_netcdf variables_dict time_list (height, width)
        gt).vars.length = variables_dict.length) ∧
    (∀ i, i < width →
      (write_downscaled_to_netcdf variables_dict time_list (height, width)
          gt).x_coords[i]? = some ((i : ℚ) * gt.a + gt.c + gt.a / 2)) ∧
    (∀ j, j < height →
      (write_downscaled_to_netcdf variables_dict time_list (height, width)
          gt).y_coords[j]? = some ((j : ℚ) * gt.e + gt.f + gt.e / 2)) ∧
    (∀ p, p ∈ (write_downscaled_to_netcdf variables_dict time_list
        (height, width) gt).vars →
      p.2.dims = ["time", "y", "x"] ∧
      ∃ e, e ∈ variables_dict ∧ p.1 = e.1 ∧ p.2.data = e.2.1 ∧
        p.2.units = e.2.2.1 ∧ p.2.description = e.2.2.2) := by
  refine ⟨?_, ?_, ?_, ?_⟩
  · simp [write_downscaled_to_netcdf]
  · intro i hi
    simp only [write_downscaled_to_netcdf, List.getElem?_map,
      List.getElem?_range hi, Option.map_some']
  · intro j hj
    simp only [write_downscaled_to_netcdf, List.getElem?_map,
      List.getElem?_range hj, Option.map_some']
  · intro p hp
    simp only [write_downscaled_to_netcdf, List.mem_map] at hp
    rcases hp with ⟨e, he, rfl⟩
    exact ⟨rfl, e, he, rfl, rfl, rfl, rfl⟩

/-- Witness for C7: one temperature variable on a 1×2 grid with the standard
geotransform; coordinates and attributes evaluate as claimed. -/
theorem write_downscaled_contract_witness :
    (write_downscaled_to_netcdf
        [("T", ([fun _ _ => (0 : ℝ)], "degC", "air temperature"))] [0] (1, 2)
        demConst.gt).x_coords[0]? =
      some ((0 : ℚ) * demConst.gt.a + demConst.gt.c + demConst.gt.a / 2) ∧
    (write_downscaled_to_netcdf
        [("T", ([fun _ _ => (0 : ℝ)], "degC", "air temperature"))] [0] (1, 2)
        demConst.gt).y_coords[0]? =
      some ((0 : ℚ) * demConst.gt.e + demConst.gt.f + demConst.gt.e / 2) ∧
    ((("T",
      ({ dims := ["time", "y", "x"], data := [fun _ _ => (0 : ℝ)],
         units := "degC", description := "air temperature" } : DataArrayM))).2.dims
        = ["time", "y", "x"] ∧
      ∃ e, e ∈ [("T", ([fun _ _ => (0 : ℝ)], "degC", "air temperature"))] ∧
        ("T" : String) = e.1 ∧
        ([fun _ _ => (0 : ℝ)] : List (ℕ → ℕ → ℝ)) = e.2.1 ∧
        ("degC" : String) = e.2.2.1 ∧ ("air temperature" : String) = e.2.2.2) := by
  have h := write_downscaled_contract
    [("T", ([fun _ _ => (0 : ℝ)], "degC", "air temperature"))] [0] 1 2 demConst.gt
  exact ⟨h.2.1 0 (by norm_num), h.2.2.1 0 (by norm_num),
    h.2.2.2 _ (by simp [write_downscaled_to_netcdf])⟩

/-- C10: for every configuration, the pipeline invokes curvature computation
exactly once, with `L = 1000` and `dem_nodata = none`, regardless of the
configured `dem_nodata`; masking with `none` is the identity, so the
nodata-to-undefined conversion is never applied on this call path. -/
theorem run_micropezzomet_curvature_nodata_none (cfg : Config)
    (climateFiles : List String) :
    (run_micropezzomet_trace cfg climateFiles).filterMap curvatureCallArgs =
      [(cfg.dem_file, cfg.working_directory, 1000, none)] ∧
    (∀ g : ℕ → ℕ → Option ℝ, maskNodata none g = g) ∧
    (∀ (r : Raster) (L : ℚ), curvatureGrid r L none =
      fullCurv r.ny r.nx (incOf L (meanCellSize r.gt))
        ((meanCellSize r.gt : ℚ) : ℝ) r.data) := by
  refine ⟨?_, fun g => rfl, fun r L => rfl⟩
  unfold run_micropezzomet_trace
  cases cfg.era_file with
  | none => simp [curvatureCallArgs]
  | some p => simp [curvatureCallArgs]

end Micromet
